import Mathlib

/-!
Verification of the guestbook backend in `src/app/api/comments/route.ts`,
`src/app/api/hello/route.ts` and `src/app/guestbook/page.tsx`.

The two route handlers are shallowly embedded as pure functions that pass the
backing-store state explicitly.  External effects are made explicit parameters:

* the parsed request body of `POST` (`await request.json()` destructured to
  `text`) becomes a `ReqBody`, where `ReqBody.malformed e` means the JSON parse
  threw an exception carrying message `e`;
* a backing-store outage during `findMany` or `create` becomes an
  `Option String` parameter (`some e` = the store call threw with message `e`);
* the current clock reading becomes a `Nat` parameter.

The Prisma layer itself (schema `Comment { id autoincrement, text String,
createdAt default now }`, `findMany orderBy createdAt desc`, `create`) is not
under `src/`; its operations are modelled from the spec below.
-/

namespace Guestbook

/-- A JavaScript value that can appear in the parsed `text` field of the
request body.  `num` is an integer (NaN and -0 are not modelled). -/
inductive JsValue where
  | str (s : String)
  | num (n : Int)
  | boolean (b : Bool)
  | null
deriving Repr, DecidableEq

/-- JavaScript truthiness test `!v` applied to a value. -/
def JsValue.falsy : JsValue → Bool
  | .str s => s == ""
  | .num n => n == 0
  | .boolean b => !b
  | .null => true

/-- Truthiness of the destructured `text` field; `none` models the field being
absent (`undefined`), which is falsy. -/
def textFalsy : Option JsValue → Bool
  | none => true
  | some v => v.falsy

/-- One stored comment record, matching the `Comment` model:
`id Int`, `text String`, `createdAt DateTime` (modelled as a `Nat` clock). -/
structure Comment where
  id : Nat
  text : String
  createdAt : Nat
deriving Repr, DecidableEq

/-- The backing store: the rows of the single `Comment` table together with the
autoincrement counter for `id`. -/
structure DB where
  rows : List Comment
  nextId : Nat
deriving Repr, DecidableEq

/-- The empty store. -/
def dbEmpty : DB := ⟨[], 0⟩

/-- Modelled from the spec: `prisma.comment.create({ data: { text } })` against
the schema `id Int @id @default(autoincrement()); text String;
createdAt DateTime @default(now())` (the schema file is not under `src/`).
A string value is stored verbatim with a fresh autoincremented `id` and
`createdAt` set to the clock; a non-string value violates the `text String`
column type and raises a client validation error. -/
def prismaCreate (v : JsValue) (now : Nat) (db : DB) : Except String (Comment × DB) :=
  match v with
  | .str s =>
      let c : Comment := ⟨db.nextId, s, now⟩
      .ok (c, ⟨db.rows ++ [c], db.nextId + 1⟩)
  | _ => .error "PrismaClientValidationError"

/-- Ordering used by `findMany`: `a` comes no later than `b` when `a` was
created no earlier than `b` (descending `createdAt`). -/
def createdDesc (a b : Comment) : Prop := b.createdAt ≤ a.createdAt

instance : DecidableRel createdDesc := fun a b => Nat.decLe b.createdAt a.createdAt

instance : IsTotal Comment createdDesc :=
  ⟨fun a b => Nat.le_total b.createdAt a.createdAt⟩

instance : IsTrans Comment createdDesc :=
  ⟨fun _ _ _ h h' => Nat.le_trans h' h⟩

/-- Modelled from the spec: `prisma.comment.findMany({ orderBy: { createdAt:
'desc' } })` returns every row of the table, sorted by `createdAt`
descending, with no pagination or filtering. -/
def prismaFindManyDesc (db : DB) : List Comment :=
  List.insertionSort createdDesc db.rows

/-- The JSON bodies the two route handlers can produce with
`NextResponse.json`. -/
inductive Body where
  | comments (cs : List Comment)
  | comment (c : Comment)
  | errorMsg (e : String)
  | hello (message timestamp : String)
deriving Repr, DecidableEq

/-- An HTTP response: status code plus JSON body. -/
structure Response where
  status : Nat
  body : Body
deriving Repr, DecidableEq

/-- The parsed body of a `POST /api/comments` request: either
`await request.json()` threw (message `e`), or it produced an object whose
destructured `text` field is the given value (`none` = absent). -/
inductive ReqBody where
  | malformed (e : String)
  | parsed (text : Option JsValue)
deriving Repr, DecidableEq

/-- The `GET` handler of `src/app/api/comments/route.ts`: on success, status
200 with the rows ordered by `createdAt` descending; if the store call throws
(`dbError = some e`), status 500 with the interpolated error message. -/
def commentsGET (dbError : Option String) (db : DB) : DB × Response :=
  match dbError with
  | some e => (db, ⟨500, .errorMsg ("Failed to fetch comments: " ++ e)⟩)
  | none => (db, ⟨200, .comments (prismaFindManyDesc db)⟩)

/-- The `POST` handler of `src/app/api/comments/route.ts`.  A JSON parse
failure lands in the catch block (500).  A falsy `text` yields the 400
validation response.  Otherwise `prisma.comment.create` runs: `storeError =
some e` models the store call throwing, and a non-string `text` makes the
client itself throw; both land in the catch block (500).  On success the
created record is returned with status 201. -/
def commentsPOST (body : ReqBody) (now : Nat) (storeError : Option String)
    (db : DB) : DB × Response :=
  match body with
  | .malformed e => (db, ⟨500, .errorMsg ("Failed to fetch comments: " ++ e)⟩)
  | .parsed text =>
      if textFalsy text then
        (db, ⟨400, .errorMsg "Comment text is required"⟩)
      else
        match storeError with
        | some e => (db, ⟨500, .errorMsg ("Failed to fetch comments: " ++ e)⟩)
        | none =>
            match text with
            | none => (db, ⟨400, .errorMsg "Comment text is required"⟩)
            | some v =>
                match prismaCreate v now db with
                | .ok (c, db') => (db', ⟨201, .comment c⟩)
                | .error e =>
                    (db, ⟨500, .errorMsg ("Failed to fetch comments: " ++ e)⟩)

/-- Two-digit zero-padded decimal rendering of a number below 100. -/
def pad2 (n : Nat) : String :=
  if n < 10 then "0" ++ toString n else toString n

/-- `new Date().toLocaleTimeString('sv-SE')` renders the clock as `HH:MM:SS`;
the clock is seconds since midnight here. -/
def svTimeString (now : Nat) : String :=
  let t := now % 86400
  pad2 (t / 3600) ++ ":" ++ pad2 (t % 3600 / 60) ++ ":" ++ pad2 (t % 60)

/-- The `GET` handler of `src/app/api/hello/route.ts`: a fixed message and the
formatted current time, with no store access. -/
def helloGET (now : Nat) (db : DB) : DB × Response :=
  (db, ⟨200, .hello "Hello from our Server! 👋" (svTimeString now)⟩)

/-- A request to either API route, with the explicit external effects it
carries. -/
inductive Request where
  | getComments (dbError : Option String)
  | postComments (body : ReqBody) (now : Nat) (storeError : Option String)
  | getHello (now : Nat)
deriving Repr, DecidableEq

/-- Dispatch a request to its handler. -/
def handle : Request → DB → DB × Response
  | .getComments dbError, db => commentsGET dbError db
  | .postComments body now storeError, db => commentsPOST body now storeError db
  | .getHello now, db => helloGET now db

/-- The store state after serving a sequence of requests. -/
def serve (reqs : List Request) (db : DB) : DB :=
  reqs.foldl (fun d r => (handle r d).1) db

/-- The store invariants of the spec: every stored text is non-empty, ids are
pairwise distinct, and (to make uniqueness inductive) every stored id is below
the autoincrement counter. -/
def Inv (db : DB) : Prop :=
  (∀ c ∈ db.rows, c.text ≠ "")
  ∧ db.rows.Pairwise (fun a b => a.id ≠ b.id)
  ∧ ∀ c ∈ db.rows, c.id < db.nextId

lemma commentsPOST_str (s : String) (h : s ≠ "") (now : Nat) (db : DB) :
    commentsPOST (.parsed (some (.str s))) now none db =
      (⟨db.rows ++ [⟨db.nextId, s, now⟩], db.nextId + 1⟩,
        ⟨201, .comment ⟨db.nextId, s, now⟩⟩) := by
  simp [commentsPOST, textFalsy, JsValue.falsy, prismaCreate, h]

lemma handle_state_cases (r : Request) (db : DB) :
    (handle r db).1 = db
    ∨ ∃ s now, s ≠ ""
        ∧ (handle r db).1 = ⟨db.rows ++ [⟨db.nextId, s, now⟩], db.nextId + 1⟩ := by
  cases r with
  | getComments e => left; cases e <;> rfl
  | getHello now => left; rfl
  | postComments body now se =>
      cases body with
      | malformed e => left; rfl
      | parsed t =>
          by_cases hf : textFalsy t = true
          · left; simp [handle, commentsPOST, hf]
          · cases t with
            | none => simp [textFalsy] at hf
            | some v =>
                cases se with
                | some e => left; simp [handle, commentsPOST, hf]
                | none =>
                    cases v with
                    | str s =>
                        right
                        refine ⟨s, now, ?_, ?_⟩
                        · intro hs
                          subst hs
                          simp [textFalsy, JsValue.falsy] at hf
                        · simp [handle, commentsPOST, hf, prismaCreate]
                    | num n => left; simp [handle, commentsPOST, hf, prismaCreate]
                    | boolean b => left; simp [handle, commentsPOST, hf, prismaCreate]
                    | null => left; simp [handle, commentsPOST, hf, prismaCreate]

lemma mem_rows_handle (r : Request) (db : DB) (c : Comment) (hc : c ∈ db.rows) :
    c ∈ (handle r db).1.rows := by
  rcases handle_state_cases r db with h | ⟨s, now, _, h⟩
  · rw [h]; exact hc
  · rw [h]; exact List.mem_append_left _ hc

lemma mem_rows_serve (reqs : List Request) (db : DB) (c : Comment)
    (hc : c ∈ db.rows) : c ∈ (serve reqs db).rows := by
  induction reqs generalizing db with
  | nil => exact hc
  | cons r rs ih => exact ih _ (mem_rows_handle r db c hc)

/-- C1: for every non-empty string `s`, `POST /comments` with `{ text: s }`
followed by `GET /comments` (both succeeding at the store) yields a 200
response whose list contains a record with `text = s`. -/
theorem C1_append_then_listAll_contains (s : String) (h : s ≠ "") (now : Nat)
    (db : DB) :
    ∃ l, commentsGET none (commentsPOST (.parsed (some (.str s))) now none db).1
        = ((commentsPOST (.parsed (some (.str s))) now none db).1,
            ⟨200, .comments l⟩)
      ∧ ∃ c ∈ l, c.text = s := by
  refine ⟨prismaFindManyDesc _, rfl, ⟨db.nextId, s, now⟩, ?_, rfl⟩
  apply (List.perm_insertionSort createdDesc _).mem_iff.mpr
  rw [commentsPOST_str s h]
  exact List.mem_append_right _ (List.mem_singleton_self _)

/-- Witness for C1 at `s = "hi"` on the empty store. -/
theorem C1_witness :
    ∃ l, commentsGET none
          (commentsPOST (.parsed (some (.str "hi"))) 0 none dbEmpty).1
        = ((commentsPOST (.parsed (some (.str "hi"))) 0 none dbEmpty).1,
            ⟨200, .comments l⟩)
      ∧ ∃ c ∈ l, c.text = "hi" :=
  C1_append_then_listAll_contains "hi" (by decide) 0 dbEmpty

/-- C2: `POST /comments` with the `text` field absent or equal to the empty
string responds 400 with body `error = "Comment text is required"` and
leaves the store unchanged, whatever the store would have done. -/
theorem C2_empty_or_missing_text_rejected (now : Nat) (se : Option String)
    (db : DB) :
    commentsPOST (.parsed none) now se db
        = (db, ⟨400, .errorMsg "Comment text is required"⟩)
      ∧ commentsPOST (.parsed (some (.str ""))) now se db
        = (db, ⟨400, .errorMsg "Comment text is required"⟩) := by
  exact ⟨rfl, rfl⟩

/-- C3: for every store state, a successful `GET /comments` returns status 200
with a permutation of all stored rows (no pagination, no filtering), sorted
by `createdAt` descending, and leaves the store unchanged. -/
theorem C3_listAll_sorted_desc (db : DB) :
    ∃ l, commentsGET none db = (db, ⟨200, .comments l⟩)
      ∧ l.Perm db.rows ∧ l.Sorted createdDesc :=
  ⟨prismaFindManyDesc db, rfl, List.perm_insertionSort createdDesc db.rows,
    List.sorted_insertionSort createdDesc db.rows⟩

/-- C4: a successful `POST /comments` with non-empty text responds 201 with
body exactly the created record (fresh id, the given text, the creation
time), and that record is in the list returned by `GET /comments` after any
sequence of further requests on the same store. -/
theorem C4_successful_append_visible (s : String) (h : s ≠ "") (now : Nat)
    (db : DB) :
    (commentsPOST (.parsed (some (.str s))) now none db).2
        = ⟨201, .comment ⟨db.nextId, s, now⟩⟩
      ∧ ∀ reqs : List Request,
          ∃ l, commentsGET none
                (serve reqs (commentsPOST (.parsed (some (.str s))) now none db).1)
              = (serve reqs
                    (commentsPOST (.parsed (some (.str s))) now none db).1,
                  ⟨200, .comments l⟩)
            ∧ (⟨db.nextId, s, now⟩ : Comment) ∈ l := by
  constructor
  · rw [commentsPOST_str s h]
  · intro reqs
    refine ⟨prismaFindManyDesc _, rfl, ?_⟩
    apply (List.perm_insertionSort createdDesc _).mem_iff.mpr
    apply mem_rows_serve
    rw [commentsPOST_str s h]
    exact List.mem_append_right _ (List.mem_singleton_self _)

/-- Witness for C4 at `s = "hi"` on the empty store. -/
theorem C4_witness :
    (commentsPOST (.parsed (some (.str "hi"))) 0 none dbEmpty).2
        = ⟨201, .comment ⟨0, "hi", 0⟩⟩
      ∧ ∀ reqs : List Request,
          ∃ l, commentsGET none
                (serve reqs (commentsPOST (.parsed (some (.str "hi"))) 0 none dbEmpty).1)
              = (serve reqs
                    (commentsPOST (.parsed (some (.str "hi"))) 0 none dbEmpty).1,
                  ⟨200, .comments l⟩)
            ∧ (⟨0, "hi", 0⟩ : Comment) ∈ l :=
  C4_successful_append_visible "hi" (by decide) 0 dbEmpty

/-- C5: a backing-store failure makes `GET /comments` respond 500 with an
`error`-string body, and makes `POST /comments` (past validation) respond 500
with an `error`-string body while creating no record: the store state is
returned unchanged, so each request is atomically one record or nothing. -/
theorem C5_store_failure_500 (e : String) (db : DB) (now : Nat) (v : JsValue)
    (h : v.falsy = false) :
    commentsGET (some e) db
        = (db, ⟨500, .errorMsg ("Failed to fetch comments: " ++ e)⟩)
      ∧ commentsPOST (.parsed (some v)) now (some e) db
        = (db, ⟨500, .errorMsg ("Failed to fetch comments: " ++ e)⟩) := by
  refine ⟨rfl, ?_⟩
  simp [commentsPOST, textFalsy, h]

/-- Witness for C5 at a concrete non-falsy text on the empty store. -/
theorem C5_witness :
    commentsGET (some "boom") dbEmpty
        = (dbEmpty, ⟨500, .errorMsg ("Failed to fetch comments: " ++ "boom")⟩)
      ∧ commentsPOST (.parsed (some (.str "hi"))) 0 (some "boom") dbEmpty
        = (dbEmpty, ⟨500, .errorMsg ("Failed to fetch comments: " ++ "boom")⟩) :=
  C5_store_failure_500 "boom" dbEmpty 0 (.str "hi") (by decide)

/-- C6: every request preserves the store invariants (all stored texts
non-empty, all ids pairwise distinct and below the autoincrement counter),
and the old rows survive unchanged as a prefix of the new rows: no record is
ever mutated or deleted. -/
theorem C6_invariants_preserved (r : Request) (db : DB) (h : Inv db) :
    Inv (handle r db).1 ∧ db.rows <+: (handle r db).1.rows := by
  obtain ⟨htext, hids, hbound⟩ := h
  rcases handle_state_cases r db with hc | ⟨s, now, hs, hc⟩
  · rw [hc]
    exact ⟨⟨htext, hids, hbound⟩, List.prefix_rfl⟩
  · rw [hc]
    refine ⟨⟨?_, ?_, ?_⟩, List.prefix_append _ _⟩
    · intro c hcmem
      rcases List.mem_append.mp hcmem with hm | hm
      · exact htext c hm
      · rw [List.mem_singleton.mp hm]
        exact hs
    · refine List.pairwise_append.mpr ⟨hids, List.pairwise_singleton _ _, ?_⟩
      intro a ha b hb
      rw [List.mem_singleton.mp hb]
      exact Nat.ne_of_lt (hbound a ha)
    · intro c hcmem
      rcases List.mem_append.mp hcmem with hm | hm
      · exact Nat.lt_succ_of_lt (hbound c hm)
      · rw [List.mem_singleton.mp hm]
        exact Nat.lt_succ_self _
/-- Witness for C6: the empty store satisfies the invariants and a concrete
`POST` preserves them. -/
theorem C6_witness :
    Inv dbEmpty
      ∧ Inv (handle (.postComments (.parsed (some (.str "hi"))) 0 none) dbEmpty).1
      ∧ dbEmpty.rows
          <+: (handle (.postComments (.parsed (some (.str "hi"))) 0 none) dbEmpty).1.rows :=
  ⟨by simp [Inv, dbEmpty],
    (C6_invariants_preserved (.postComments (.parsed (some (.str "hi"))) 0 none)
      dbEmpty (by simp [Inv, dbEmpty])).1,
    (C6_invariants_preserved (.postComments (.parsed (some (.str "hi"))) 0 none)
      dbEmpty (by simp [Inv, dbEmpty])).2⟩

/-- C7: `GET /comments` is read-only (it returns the store unchanged, even on
failure) and idempotent: two consecutive successful calls with no intervening
append return the same response. -/
theorem C7_listAll_idempotent_readonly (dbError : Option String) (db : DB) :
    (commentsGET dbError db).1 = db
      ∧ (commentsGET none ((commentsGET none db).1)).2
        = (commentsGET none db).2 := by
  cases dbError <;> exact ⟨rfl, rfl⟩

/-- C8: `GET /hello` returns status 200 with a body holding exactly a string
`message` and a string `timestamp`; it neither modifies the comment store nor
reads it (its response is independent of the store state). -/
theorem C8_hello_shape_and_frame (now : Nat) (db db' : DB) :
    (helloGET now db).1 = db
      ∧ (helloGET now db).2 = (helloGET now db').2
      ∧ (helloGET now db).2
        = ⟨200, .hello "Hello from our Server! 👋" (svTimeString now)⟩ :=
  ⟨rfl, rfl, rfl⟩

/-- C9 as stated is false: the truthy non-string value `5` passes the `!text`
validation but `prisma.comment.create` rejects a non-string `text`, so the
handler answers 500, not a successful append. -/
theorem C9_counterexample :
    (JsValue.num 5).falsy = false
      ∧ (commentsPOST (.parsed (some (.num 5))) 0 none dbEmpty).2.status = 500
      ∧ (commentsPOST (.parsed (some (.num 5))) 0 none dbEmpty).1 = dbEmpty :=
  ⟨rfl, rfl, rfl⟩

/-- C9 (amended): validation answers 400 exactly on the JS-falsy values of the
parsed `text` field; a whitespace-only string such as `" "` passes validation
and is stored verbatim; the non-string falsy values `0` and `false` are
rejected with 400; truthy strings succeed with 201 (store permitting); but a
truthy non-string passes validation and then fails the store's column type
check, answering 500 rather than succeeding. -/
theorem C9_amended_falsy_validation :
    (∀ (t : Option JsValue) (now : Nat) (se : Option String) (db : DB),
        (commentsPOST (.parsed t) now se db).2.status = 400 ↔ textFalsy t = true)
      ∧ (∀ (now : Nat) (db : DB),
          commentsPOST (.parsed (some (.str " "))) now none db
            = (⟨db.rows ++ [⟨db.nextId, " ", now⟩], db.nextId + 1⟩,
                ⟨201, .comment ⟨db.nextId, " ", now⟩⟩))
      ∧ (∀ (now : Nat) (se : Option String) (db : DB),
          commentsPOST (.parsed (some (.num 0))) now se db
            = (db, ⟨400, .errorMsg "Comment text is required"⟩))
      ∧ (∀ (now : Nat) (se : Option String) (db : DB),
          commentsPOST (.parsed (some (.boolean false))) now se db
            = (db, ⟨400, .errorMsg "Comment text is required"⟩))
      ∧ (∀ (s : String) (now : Nat) (db : DB), s ≠ "" →
          (commentsPOST (.parsed (some (.str s))) now none db).2.status = 201)
      ∧ (∀ (v : JsValue) (now : Nat) (db : DB),
          v.falsy = false → (∀ s, v ≠ .str s) →
          (commentsPOST (.parsed (some v)) now none db).2.status = 500) := by
  refine ⟨?_, fun now db => rfl, fun now se db => rfl, fun now se db => rfl,
    ?_, ?_⟩
  · intro t now se db
    cases t with
    | none => simp [commentsPOST, textFalsy]
    | some v =>
        cases hv : v.falsy with
        | true => simp [commentsPOST, textFalsy, hv]
        | false =>
            simp only [commentsPOST, textFalsy, hv, Bool.false_eq_true,
              if_false]
            cases se with
            | some e => simp
            | none =>
                cases v with
                | str s => simp [prismaCreate]
                | num n => simp [prismaCreate]
                | boolean b => simp [prismaCreate]
                | null => simp [prismaCreate]
  · intro s now db hs
    rw [commentsPOST_str s hs]
  · intro v now db hv hns
    cases v with
    | str s => exact absurd rfl (hns s)
    | num n => simp [commentsPOST, textFalsy, hv, prismaCreate]
    | boolean b => simp [commentsPOST, textFalsy, hv, prismaCreate]
    | null => simp [textFalsy, JsValue.falsy] at hv

/-- Witness for the amended C9 at concrete truthy inputs. -/
theorem C9_witness :
    (commentsPOST (.parsed (some (.str "x"))) 0 none dbEmpty).2.status = 201
      ∧ (commentsPOST (.parsed (some (.boolean true))) 0 none dbEmpty).2.status
        = 500 :=
  ⟨C9_amended_falsy_validation.2.2.2.2.1 "x" 0 dbEmpty (by decide),
    C9_amended_falsy_validation.2.2.2.2.2 (.boolean true) 0 dbEmpty (by decide)
      (fun s h => by cases h)⟩

/-- C10: a `POST /comments` whose body fails to parse as JSON is answered 500
with an `error`-string body carrying the parse error — never the 400
validation response — and no record is created: the store is unchanged. -/
theorem C10_malformed_json_500 (e : String) (now : Nat) (se : Option String)
    (db : DB) :
    commentsPOST (.malformed e) now se db
        = (db, ⟨500, .errorMsg ("Failed to fetch comments: " ++ e)⟩)
      ∧ (commentsPOST (.malformed e) now se db).2.status ≠ 400 :=
  ⟨rfl, by simp [commentsPOST]⟩

/-- Witness for C10 at a concrete parse error on the empty store. -/
theorem C10_witness :
    commentsPOST (.malformed "oops") 0 none dbEmpty
        = (dbEmpty, ⟨500, .errorMsg ("Failed to fetch comments: " ++ "oops")⟩)
      ∧ (commentsPOST (.malformed "oops") 0 none dbEmpty).2.status ≠ 400 :=
  C10_malformed_json_500 "oops" 0 none dbEmpty

end Guestbook
